import Mathlib

/-!
Verification of the fantasy-football-assistant core against its
natural-language specification.  Numbers that are TypeScript `number`s
or Python ints are modelled as `ℚ` (for scores, budgets) or `ℤ`/`ℕ`
(for identifiers and counters); fallible operations return `Option`.
-/

set_option maxRecDepth 4000

namespace FFA

/-! ## Waiver budgets (spec §4.5, frontend useWaiverBudgets.ts / Header.tsx) -/

/-- Transaction type of a waiver transaction, from the frontend's
`WaiverTransaction` usage (Header.tsx `getTypeColor`) and spec §3. -/
inductive TxType
  | ADD | DROP | TRADE
  deriving DecidableEq, Repr

/-- Status of a waiver transaction, from Header.tsx `getStatusColor`
and spec §3. -/
inductive TxStatus
  | PENDING | SUCCESSFUL | FAILED
  deriving DecidableEq, Repr

/-- A waiver transaction: team, player, type, bid amount, status
(spec §3 WaiverTransaction; frontend `WaiverTransaction`). -/
structure WaiverTxn where
  team_id : ℤ
  player_id : ℤ
  transaction_type : TxType
  bid_amount : ℚ
  status : TxStatus
  deriving DecidableEq, Repr

/-- The per-team budget record served to the frontend
(`TeamBudgetSummary` as consumed by useWaiverBudgets.ts and
Header.tsx: `current_budget`, `spent_budget`, `total_budget`). -/
structure TeamBudgetSummary where
  team_id : ℤ
  current_budget : ℚ
  spent_budget : ℚ
  total_budget : ℚ
  deriving DecidableEq, Repr

/-- Amount a single transaction contributes to `spent`: its bid amount
when it is a SUCCESSFUL ADD, otherwise nothing (spec §4.5). -/
def spentContribution (t : WaiverTxn) : ℚ :=
  match t.transaction_type, t.status with
  | TxType.ADD, TxStatus.SUCCESSFUL => t.bid_amount
  | _, _ => 0

/-- Modelled from the spec: the backend WaiverLedger `currentBudget`
computation is not in the frontend sources; spec §4.5 defines it as
`spent = sum of bid amounts on transactions with type=ADD and
status=SUCCESSFUL; remaining = total − spent`, folded over the team's
transaction history. -/
def currentBudget (teamId : ℤ) (total : ℚ) (txns : List WaiverTxn) :
    TeamBudgetSummary :=
  let spent := (txns.map spentContribution).sum
  { team_id := teamId
    current_budget := total - spent
    spent_budget := spent
    total_budget := total }

/-- JavaScript `Math.round`: rounds half away from zero upward, i.e.
`⌊x + 1/2⌋` for finite inputs. -/
def jsRound (x : ℚ) : ℤ := ⌊x + 1/2⌋

/-- The derived budget info of useWaiverBudgets.ts `useTeamBudget`
(lines 25–31): remaining/spent/total copied from the record plus
rounded percentages. -/
structure BudgetInfo where
  remaining : ℚ
  spent : ℚ
  total : ℚ
  spentPercentage : ℤ
  remainingPercentage : ℤ
  deriving DecidableEq, Repr

/-- `useTeamBudget`'s `budgetInfo` construction from a found
`TeamBudgetSummary` (useWaiverBudgets.ts lines 25–31). -/
def budgetInfo (b : TeamBudgetSummary) : BudgetInfo :=
  { remaining := b.current_budget
    spent := b.spent_budget
    total := b.total_budget
    spentPercentage := jsRound (b.spent_budget / b.total_budget * 100)
    remainingPercentage := jsRound (b.current_budget / b.total_budget * 100) }

/-- The three dollar figures `WaiverBudgetCard` renders (Header.tsx
lines 245, 264, 260): remaining (`current_budget`), spent
(`spent_budget`) and total (`total_budget`), in that order. -/
def waiverBudgetCardDisplay (b : TeamBudgetSummary) : ℚ × ℚ × ℚ :=
  (b.current_budget, b.spent_budget, b.total_budget)

/-! ## Utility functions (frontend utils/index.ts) -/

/-- JavaScript `String.prototype.toUpperCase` on the character level
(ASCII case mapping, which is all the compared literals need). -/
def jsToUpper (s : String) : String := ⟨s.data.map Char.toUpper⟩

/-- `getPositionColor` (utils/index.ts lines 23–41): switch on the
upper-cased position with a default colour for unrecognized codes. -/
def getPositionColor (position : String) : String :=
  let p := jsToUpper position
  if p = "QB" then "text-red-600 bg-red-100"
  else if p = "RB" then "text-green-600 bg-green-100"
  else if p = "WR" then "text-blue-600 bg-blue-100"
  else if p = "TE" then "text-yellow-600 bg-yellow-100"
  else if p = "K" then "text-purple-600 bg-purple-100"
  else if p = "D/ST" ∨ p = "DST" then "text-gray-600 bg-gray-100"
  else "text-gray-600 bg-gray-100"

/-- `getInjuryStatusColor` (utils/index.ts lines 44–58): `none` models
the optional parameter being absent. -/
def getInjuryStatusColor (status : Option String) : String :=
  match status with
  | none => "text-green-600"
  | some s =>
    if s = "" ∨ s = "ACTIVE" then "text-green-600"
    else
      let u := jsToUpper s
      if u = "QUESTIONABLE" then "text-yellow-600"
      else if u = "DOUBTFUL" then "text-orange-600"
      else if u = "OUT" ∨ u = "IR" then "text-red-600"
      else "text-gray-600"

/-- `getWinPercentage` (utils/index.ts lines 66–70). -/
def getWinPercentage (wins losses ties : ℚ) : ℚ :=
  let totalGames := wins + losses + ties
  if totalGames = 0 then 0
  else ((wins + ties * (1/2)) / totalGames) * 100

/-! ## ESPN league id validation (utils/index.ts lines 73–76)

`isValidESPNLeagueId` calls JavaScript `parseInt` with no radix
argument.  `parseIntJS` embeds that semantics exactly: skip leading
whitespace, optional sign, an optional `0x`/`0X` hex marker, then the
longest run of digits of the chosen radix; no digits means `NaN`,
modelled as `none`.  (JS returns a double, so very long digit strings
round, but rounding never changes the sign or zero-ness of the result,
which is all `isValidESPNLeagueId` inspects.) -/

/-- The whitespace characters JavaScript's `parseInt` skips (the
common ASCII ones; exotic Unicode space classes behave the same way
and are omitted). -/
def isJsWhitespace (c : Char) : Bool :=
  c = ' ' || c = '\t' || c = '\n' || c = '\r' ||
  c.toNat = 11 || c.toNat = 12

/-- Value of a single hexadecimal digit character, `none` otherwise. -/
def hexDigitVal (c : Char) : Option ℕ :=
  if '0' ≤ c ∧ c ≤ '9' then some (c.toNat - '0'.toNat)
  else if 'a' ≤ c ∧ c ≤ 'f' then some (c.toNat - 'a'.toNat + 10)
  else if 'A' ≤ c ∧ c ≤ 'F' then some (c.toNat - 'A'.toNat + 10)
  else none

/-- Value of a digit character in the given radix (10 or 16 here). -/
def digitVal (radix : ℕ) (c : Char) : Option ℕ :=
  match hexDigitVal c with
  | none => none
  | some d => if d < radix then some d else none

/-- Accumulate the longest leading run of radix digits, ignoring
whatever follows — `parseInt` stops at the first non-digit. -/
def digitsAcc (radix : ℕ) (acc : ℕ) : List Char → ℕ
  | [] => acc
  | c :: rest =>
    match digitVal radix c with
    | none => acc
    | some d => digitsAcc radix (acc * radix + d) rest

/-- JavaScript `parseInt(s)` (radix argument omitted), as an exact
integer; `none` is `NaN`. -/
def parseIntJS (s : String) : Option ℤ :=
  let cs := s.data.dropWhile isJsWhitespace
  let sign : ℤ := match cs with
    | '-' :: _ => -1
    | _ => 1
  let cs1 := match cs with
    | '-' :: rest => rest
    | '+' :: rest => rest
    | _ => cs
  let radix : ℕ := match cs1 with
    | '0' :: 'x' :: _ => 16
    | '0' :: 'X' :: _ => 16
    | _ => 10
  let cs2 := match cs1 with
    | '0' :: 'x' :: rest => rest
    | '0' :: 'X' :: rest => rest
    | _ => cs1
  match cs2 with
  | [] => none
  | c :: rest =>
    match digitVal radix c with
    | none => none
    | some d => some (sign * (digitsAcc radix d rest : ℤ))

/-- `isValidESPNLeagueId` (utils/index.ts lines 73–76):
`const id = parseInt(leagueId); return !isNaN(id) && id > 0;`. -/
def isValidESPNLeagueId (leagueId : String) : Bool :=
  match parseIntJS leagueId with
  | none => false
  | some id => decide (0 < id)

/-! ## Matchups (spec §3 Matchup, frontend MatchupCard.tsx) -/

/-- The winner enum of a matchup, `{HOME, AWAY, TIE, UNDECIDED}`
(spec §3; MatchupCard.tsx compares `matchup.winner` against exactly
these four string values). -/
inductive Winner
  | HOME | AWAY | TIE | UNDECIDED
  deriving DecidableEq, Repr

/-- The fields of a `Matchup` that MatchupCard.tsx reads for winner
styling and the result summary. -/
structure Matchup where
  week : ℕ
  home_team_id : ℤ
  away_team_id : ℤ
  home_score : ℚ
  away_score : ℚ
  winner : Winner
  deriving DecidableEq, Repr

/-- `getWinnerStyle` (MatchupCard.tsx lines 35–45): neutral empty
style while the matchup is UNDECIDED, otherwise a highlight for the
winning side and a dimmed style for the loser. -/
def getWinnerStyle (m : Matchup) (userTeamId : Option ℤ) (isHome : Bool) :
    String :=
  let isWinner := m.winner = (if isHome then Winner.HOME else Winner.AWAY)
  let isUser := userTeamId = some (if isHome then m.home_team_id else m.away_team_id)
  if m.winner = Winner.UNDECIDED then ""
  else if isWinner then
    if isUser then "bg-green-50 border-green-200"
    else "bg-blue-50 border-blue-200"
  else "bg-gray-50 border-gray-200 opacity-75"

/-- The result summary block of MatchupCard.tsx (lines 153–167): it is
rendered only when `winner !== 'UNDECIDED'`, showing "Tied Game" for a
tie and "<name> Wins" otherwise; `none` models the block absent. -/
def resultSummary (m : Matchup) (homeTeamName awayTeamName : String) :
    Option String :=
  if m.winner = Winner.UNDECIDED then none
  else if m.winner = Winner.TIE then some "Tied Game"
  else some ((if m.winner = Winner.HOME then homeTeamName else awayTeamName)
             ++ " Wins")

/-! ## Remote client retry (src/unnamed/part_007, `espn_request_with_retry`)

The Python loop runs `for attempt in range(max_retries)`.  Per
attempt: status 200 returns the payload; status 429 sleeps
`2 ** attempt` seconds and continues; any other status raises via
`response.raise_for_status()` — an `httpx.HTTPStatusError`, which the
`except httpx.RequestError` clause does NOT catch, so it propagates
immediately with no retry; a transport error (`httpx.RequestError`) is
re-raised on the last attempt and otherwise sleeps 1 second and
continues.  Falling off the loop raises "Max retries exceeded". -/

/-- One scripted upstream response: an HTTP status or a transport
error. -/
inductive UpResp
  | status (code : ℕ)
  | netErr
  deriving DecidableEq, Repr

/-- Outcome of `espn_request_with_retry`. -/
inductive RetryResult
  | success
  | httpError (code : ℕ)
  | requestError
  | maxRetriesExceeded
  deriving DecidableEq, Repr

/-- Trace of a retry run: final outcome, number of HTTP requests
actually issued, and the seconds slept between consecutive attempts in
order. -/
structure RetryTrace where
  result : RetryResult
  attempts : ℕ
  sleeps : List ℕ
  deriving DecidableEq, Repr

/-- The retry loop from position `attempt` with `fuel` loop iterations
left (`fuel = max_retries - attempt`); `upstream n` is the response to
the `n`-th request (0-based). -/
def retryFrom (upstream : ℕ → UpResp) : ℕ → ℕ → RetryTrace
  | _, 0 => ⟨RetryResult.maxRetriesExceeded, 0, []⟩
  | attempt, fuel + 1 =>
    match upstream attempt with
    | UpResp.status code =>
      if code = 200 then ⟨RetryResult.success, 1, []⟩
      else if code = 429 then
        let r := retryFrom upstream (attempt + 1) fuel
        ⟨r.result, r.attempts + 1, 2 ^ attempt :: r.sleeps⟩
      else ⟨RetryResult.httpError code, 1, []⟩
    | UpResp.netErr =>
      if fuel = 0 then ⟨RetryResult.requestError, 1, []⟩
      else
        let r := retryFrom upstream (attempt + 1) fuel
        ⟨r.result, r.attempts + 1, 1 :: r.sleeps⟩

/-- `espn_request_with_retry(url, cookies, max_retries)`; the source's
default is `max_retries=3`. -/
def espnRequestWithRetry (upstream : ℕ → UpResp) (maxRetries : ℕ) :
    RetryTrace :=
  retryFrom upstream 0 maxRetries

/-- The upstream script of spec §8's retry property: rate-limited
(429) on the first three requests, 200 from the fourth on. -/
def rateLimitedThenOk : ℕ → UpResp :=
  fun n => if n < 3 then UpResp.status 429 else UpResp.status 200

/-! ## Axios response interceptor (frontend services/api.ts lines 46–68) -/

/-- Client-side auth state touched by the interceptor: the stored
token (`localStorage 'access_token'`), the axios default Authorization
header, and `window.location.pathname`. -/
structure AuthState where
  access_token : Option String
  authHeader : Option String
  path : String
  deriving DecidableEq, Repr

/-- `removeAuthToken` (api.ts lines 24–27): clears the stored token
and the default Authorization header. -/
def removeAuthToken (st : AuthState) : AuthState :=
  { st with access_token := none, authHeader := none }

/-- The shape of a failed axios error as the interceptor reads it:
`error.response?.status`, `error.response?.data?.detail`,
`error.message`. -/
structure AxiosFailure where
  status : Option ℕ
  detail : Option String
  message : String
  deriving DecidableEq, Repr

/-- The `ApiError` the interceptor rejects with (types/index.ts). -/
structure ApiError where
  detail : String
  status : Option ℕ
  deriving DecidableEq, Repr

/-- The response error interceptor (api.ts lines 50–67): on status
401 it removes the auth token and redirects to /login (if not already
there), then rejects with the transformed `ApiError`; it never
re-issues the request. -/
def responseErrorInterceptor (st : AuthState) (err : AxiosFailure) :
    AuthState × ApiError :=
  let st1 :=
    if err.status = some 401 then
      let cleared := removeAuthToken st
      if cleared.path ≠ "/login" then { cleared with path := "/login" }
      else cleared
    else st
  let fromDetail : Option String :=
    match err.detail with
    | some s => if s = "" then none else some s
    | none => none
  let detail :=
    match fromDetail with
    | some s => s
    | none => if err.message = "" then "An unexpected error occurred"
              else err.message
  (st1, { detail := detail, status := err.status })

/-! ## Trade evaluation (spec §4.4; frontend services/trades.ts,
types/index.ts `TradeAnalysisResponse`)

The frontend only posts the request to `/trades/analyze`; the backend
evaluator itself is not among the sources, so the computation is
modelled from spec §4.4 below.  The response record shape comes from
the source type `TradeAnalysisResponse` (types/index.ts lines
146–153). -/

/-- `TradeAnalysisResponse` (types/index.ts lines 146–153):
`fairness_score` and `value_difference` are optional fields, absent
exactly when the input was invalid. -/
structure TradeAnalysisResponse where
  is_valid : Bool
  fairness_score : Option ℚ
  value_difference : Option ℚ
  analysis_summary : String
  recommendations : List String
  deriving DecidableEq, Repr

/-- A player on one side of a trade: external player id and its
computed value. -/
abbrev ValuedPlayer := ℕ × ℚ

/-- Total value of one side of a trade. -/
def totalValue (ps : List ValuedPlayer) : ℚ :=
  (ps.map Prod.snd).sum

/-- Modelled from the spec: the validity check of §4.4 — "both sets
non-empty, disjoint, every player currently on the respective team's
active roster" (the backend implementation is not in the sources). -/
def tradeValid (giveRoster receiveRoster : List ℕ)
    (give receive : List ValuedPlayer) : Bool :=
  !give.isEmpty && !receive.isEmpty &&
  give.all (fun p => receive.all (fun q => p.1 != q.1)) &&
  give.all (fun p => giveRoster.contains p.1) &&
  receive.all (fun q => receiveRoster.contains q.1)

/-- The epsilon of §4.4's `max(totalGiveValue, totalReceiveValue,
epsilon)` denominator; a policy constant, any positive value. -/
def valueEpsilon : ℚ := 1/100

/-- Modelled from the spec: §4.4's fairness penalty, "proportional to
|valueDifference| / max(totalGiveValue, totalReceiveValue, epsilon)"
(proportionality constant 100, putting the ratio on the 0–100
scale). -/
def fairnessPenalty (totalGive totalReceive : ℚ) : ℚ :=
  100 * |totalReceive - totalGive| / max totalGive (max totalReceive valueEpsilon)

/-- Modelled from the spec: the TradeEvaluator `evaluate` of §4.4,
which is absent from the sources (the frontend only posts to the
backend).  Invalid inputs short-circuit with `is_valid = false` and no
score; otherwise `valueDifference = sum(receiveValues) -
sum(giveValues)` and `fairnessScore = clamp(100 - penalty, 0, 100)`;
a score below 40 yields the "significantly lopsided" recommendation
naming the disadvantaged side. -/
def evaluateTrade (giveRoster receiveRoster : List ℕ)
    (give receive : List ValuedPlayer) : TradeAnalysisResponse :=
  if tradeValid giveRoster receiveRoster give receive then
    let totalGive := totalValue give
    let totalReceive := totalValue receive
    let vd := totalReceive - totalGive
    let score := max 0 (min 100 (100 - fairnessPenalty totalGive totalReceive))
    { is_valid := true
      fairness_score := some score
      value_difference := some vd
      analysis_summary := "Trade analyzed"
      recommendations :=
        if score < 40 then
          [if vd > 0 then "Significantly lopsided: favors the proposing team"
           else "Significantly lopsided: favors the receiving team"]
        else [] }
  else
    { is_valid := false
      fairness_score := none
      value_difference := none
      analysis_summary := "Invalid trade proposal"
      recommendations := [] }

end FFA

namespace FFA

/-! ## Theorems -/

/-- A PENDING transaction contributes nothing to `spent`. -/
lemma spentContribution_pending (t : WaiverTxn)
    (h : t.status = TxStatus.PENDING) : spentContribution t = 0 := by
  unfold spentContribution
  rw [h]
  cases t.transaction_type <;> rfl

/-- Dropping the PENDING transactions from a history does not change
the spent total. -/
lemma spent_sum_filter_pending (txns : List WaiverTxn) :
    (txns.map spentContribution).sum
      = ((txns.filter (fun t => t.status != TxStatus.PENDING)).map
          spentContribution).sum := by
  induction txns with
  | nil => rfl
  | cons t ts ih =>
    by_cases h : t.status = TxStatus.PENDING
    · simp [List.filter_cons, h, spentContribution_pending t h, ih]
    · simp [List.filter_cons, h, ih]

/-- C1: every ledger-derived team budget record satisfies
`spent_budget + current_budget = total_budget`; PENDING transactions
never contribute to spent (filtering them out leaves `spent_budget`
unchanged); and for every budget record satisfying the identity, the
`budgetInfo` of `useTeamBudget` and the figures `WaiverBudgetCard`
displays satisfy `remaining = total - spent`. -/
theorem waiver_budget_invariant :
    (∀ (teamId : ℤ) (total : ℚ) (txns : List WaiverTxn),
        (currentBudget teamId total txns).spent_budget
          + (currentBudget teamId total txns).current_budget
          = (currentBudget teamId total txns).total_budget)
    ∧ (∀ (teamId : ℤ) (total : ℚ) (txns : List WaiverTxn),
        (currentBudget teamId total txns).spent_budget
          = (currentBudget teamId total
              (txns.filter (fun t => t.status != TxStatus.PENDING))).spent_budget)
    ∧ (∀ b : TeamBudgetSummary,
        b.spent_budget + b.current_budget = b.total_budget →
          (budgetInfo b).remaining = (budgetInfo b).total - (budgetInfo b).spent
          ∧ (waiverBudgetCardDisplay b).1
              = (waiverBudgetCardDisplay b).2.2 - (waiverBudgetCardDisplay b).2.1) := by
  refine ⟨fun teamId total txns => ?_, fun teamId total txns => ?_,
    fun b hb => ⟨?_, ?_⟩⟩
  · simp [currentBudget]
  · simpa [currentBudget] using spent_sum_filter_pending txns
  · simp only [budgetInfo]
    linarith
  · simp only [waiverBudgetCardDisplay]
    linarith

/-- Witness for C1 at a concrete budget record: the one derived from
a single successful 12-dollar ADD bid against a 100-dollar total. -/
theorem waiver_budget_invariant_witness :
    (budgetInfo ⟨1, 88, 12, 100⟩).remaining
      = (budgetInfo ⟨1, 88, 12, 100⟩).total - (budgetInfo ⟨1, 88, 12, 100⟩).spent
    ∧ (waiverBudgetCardDisplay ⟨1, 88, 12, 100⟩).1
        = (waiverBudgetCardDisplay ⟨1, 88, 12, 100⟩).2.2
          - (waiverBudgetCardDisplay ⟨1, 88, 12, 100⟩).2.1 :=
  waiver_budget_invariant.2.2 ⟨1, 88, 12, 100⟩ (by norm_num)

/-- C2 counterexample: with the source's default `max_retries = 3`,
three consecutive 429 responses exhaust the loop — the call raises
"Max retries exceeded" after exactly 3 attempts and never reaches the
fourth, successful response. -/
theorem retry_default_counterexample :
    ¬ ((espnRequestWithRetry rateLimitedThenOk 3).result = RetryResult.success
       ∧ (espnRequestWithRetry rateLimitedThenOk 3).attempts = 4) := by
  decide

/-- C2 (amended): when the retry ceiling admits a fourth attempt
(`max_retries ≥ 4`), three 429 responses followed by a 200 yield
success, exactly 4 attempts, and strictly increasing sleeps 1, 2, 4
seconds between consecutive attempts. -/
theorem retry_rate_limited_then_success (m : ℕ) (hm : 4 ≤ m) :
    (espnRequestWithRetry rateLimitedThenOk m).result = RetryResult.success
    ∧ (espnRequestWithRetry rateLimitedThenOk m).attempts = 4
    ∧ (espnRequestWithRetry rateLimitedThenOk m).sleeps = [1, 2, 4]
    ∧ List.Chain' (· < ·) (espnRequestWithRetry rateLimitedThenOk m).sleeps := by
  obtain ⟨k, rfl⟩ : ∃ k, m = k + 4 := ⟨m - 4, by omega⟩
  norm_num [espnRequestWithRetry, retryFrom, rateLimitedThenOk]

/-- Witness for C2's amended theorem at `max_retries = 4`. -/
theorem retry_rate_limited_then_success_witness :
    (espnRequestWithRetry rateLimitedThenOk 4).result = RetryResult.success
    ∧ (espnRequestWithRetry rateLimitedThenOk 4).attempts = 4
    ∧ (espnRequestWithRetry rateLimitedThenOk 4).sleeps = [1, 2, 4]
    ∧ List.Chain' (· < ·) (espnRequestWithRetry rateLimitedThenOk 4).sleeps :=
  retry_rate_limited_then_success 4 (by decide)

/-- Propositional characterization of the validity check. -/
lemma tradeValid_iff (gR rR : List ℕ) (give receive : List ValuedPlayer) :
    tradeValid gR rR give receive = true ↔
      give ≠ [] ∧ receive ≠ [] ∧
      (∀ p ∈ give, ∀ q ∈ receive, p.1 ≠ q.1) ∧
      (∀ p ∈ give, p.1 ∈ gR) ∧ (∀ q ∈ receive, q.1 ∈ rR) := by
  simp [tradeValid, List.all_eq_true, List.isEmpty_iff, and_assoc]

/-- Validity is symmetric in the two sides (with rosters swapped
alongside). -/
lemma tradeValid_swap (gR rR : List ℕ) (give receive : List ValuedPlayer)
    (h : tradeValid gR rR give receive = true) :
    tradeValid rR gR receive give = true := by
  rw [tradeValid_iff] at h ⊢
  obtain ⟨h1, h2, h3, h4, h5⟩ := h
  exact ⟨h2, h1, fun q hq p hp => (h3 p hp q hq).symm, h5, h4⟩

/-- The fairness penalty is symmetric in the two side totals. -/
lemma fairnessPenalty_comm (a b : ℚ) :
    fairnessPenalty b a = fairnessPenalty a b := by
  unfold fairnessPenalty
  rw [abs_sub_comm, max_left_comm]

/-- C3: for every valid trade input, swapping the give side with the
receive side (rosters swapped alongside) preserves the magnitude of
the fairness score's deviation from 100 and negates the value
difference. -/
theorem trade_swap_symmetry (gR rR : List ℕ) (give receive : List ValuedPlayer)
    (h : tradeValid gR rR give receive = true) :
    ∃ s s' v : ℚ,
      (evaluateTrade gR rR give receive).fairness_score = some s
      ∧ (evaluateTrade rR gR receive give).fairness_score = some s'
      ∧ |s' - 100| = |s - 100|
      ∧ (evaluateTrade gR rR give receive).value_difference = some v
      ∧ (evaluateTrade rR gR receive give).value_difference = some (-v) := by
  have h' := tradeValid_swap gR rR give receive h
  refine ⟨max 0 (min 100 (100 - fairnessPenalty (totalValue give) (totalValue receive))),
    max 0 (min 100 (100 - fairnessPenalty (totalValue receive) (totalValue give))),
    totalValue receive - totalValue give, ?_, ?_, ?_, ?_, ?_⟩
  · simp [evaluateTrade, h]
  · simp [evaluateTrade, h']
  · rw [fairnessPenalty_comm]
  · simp [evaluateTrade, h]
  · simp [evaluateTrade, h']

/-- Witness for C3: a valid one-for-one trade of unequal values. -/
theorem trade_swap_symmetry_witness :
    tradeValid [1] [2] [(1, 30)] [(2, 70)] = true
    ∧ ∃ s s' v : ℚ,
        (evaluateTrade [1] [2] [(1, 30)] [(2, 70)]).fairness_score = some s
        ∧ (evaluateTrade [2] [1] [(2, 70)] [(1, 30)]).fairness_score = some s'
        ∧ |s' - 100| = |s - 100|
        ∧ (evaluateTrade [1] [2] [(1, 30)] [(2, 70)]).value_difference = some v
        ∧ (evaluateTrade [2] [1] [(2, 70)] [(1, 30)]).value_difference = some (-v) :=
  ⟨by decide, trade_swap_symmetry [1] [2] [(1, 30)] [(2, 70)] (by decide)⟩

/-- C4: a valid trade whose two sides have equal total value evaluates
to fairness score exactly 100 and value difference 0. -/
theorem trade_equal_values_fair (gR rR : List ℕ)
    (give receive : List ValuedPlayer)
    (h : tradeValid gR rR give receive = true)
    (heq : totalValue give = totalValue receive) :
    (evaluateTrade gR rR give receive).is_valid = true
    ∧ (evaluateTrade gR rR give receive).fairness_score = some 100
    ∧ (evaluateTrade gR rR give receive).value_difference = some 0 := by
  have hpen : fairnessPenalty (totalValue give) (totalValue receive) = 0 := by
    unfold fairnessPenalty
    rw [heq]
    simp
  refine ⟨by simp [evaluateTrade, h], ?_, ?_⟩
  · simp [evaluateTrade, h, hpen]
  · simp [evaluateTrade, h, heq]

/-- Witness for C4: the spec §8 scenario give = 50, receive = 50. -/
theorem trade_equal_values_fair_witness :
    (evaluateTrade [1] [2] [(1, 50)] [(2, 50)]).is_valid = true
    ∧ (evaluateTrade [1] [2] [(1, 50)] [(2, 50)]).fairness_score = some 100
    ∧ (evaluateTrade [1] [2] [(1, 50)] [(2, 50)]).value_difference = some 0 :=
  trade_equal_values_fair [1] [2] [(1, 50)] [(2, 50)] (by decide) (by norm_num [totalValue])

/-- C5: a trade request with an empty side, a non-disjoint pair of
sides, or a player missing from the respective roster short-circuits:
`is_valid = false` and both optional result fields are absent. -/
theorem trade_invalid_short_circuit (gR rR : List ℕ)
    (give receive : List ValuedPlayer)
    (h : give = [] ∨ receive = []
         ∨ (∃ p ∈ give, ∃ q ∈ receive, p.1 = q.1)
         ∨ (∃ p ∈ give, p.1 ∉ gR)
         ∨ (∃ q ∈ receive, q.1 ∉ rR)) :
    (evaluateTrade gR rR give receive).is_valid = false
    ∧ (evaluateTrade gR rR give receive).fairness_score = none
    ∧ (evaluateTrade gR rR give receive).value_difference = none := by
  have hv : tradeValid gR rR give receive = false := by
    rw [Bool.eq_false_iff]
    intro htrue
    rw [tradeValid_iff] at htrue
    obtain ⟨h1, h2, h3, h4, h5⟩ := htrue
    rcases h with h | h | ⟨p, hp, q, hq, hpq⟩ | ⟨p, hp, hpR⟩ | ⟨q, hq, hqR⟩
    · exact h1 h
    · exact h2 h
    · exact h3 p hp q hq hpq
    · exact hpR (h4 p hp)
    · exact hqR (h5 q hq)
  simp [evaluateTrade, hv]

/-- Witness for C5: an empty give side. -/
theorem trade_invalid_short_circuit_witness :
    (evaluateTrade [1] [2] [] [(2, 50)]).is_valid = false
    ∧ (evaluateTrade [1] [2] [] [(2, 50)]).fairness_score = none
    ∧ (evaluateTrade [1] [2] [] [(2, 50)]).value_difference = none :=
  trade_invalid_short_circuit [1] [2] [] [(2, 50)] (Or.inl rfl)

/-- C6: the mapping functions are total, and any input outside the
recognized set yields the explicit default variant — the grey default
colour for positions, the grey default for injury statuses — while an
absent status maps to the healthy default, never failing. -/
theorem mapping_unknown_defaults (p s : String)
    (hp : jsToUpper p ∉ (["QB", "RB", "WR", "TE", "K", "D/ST", "DST"] : List String))
    (hs0 : s ≠ "") (hs1 : s ≠ "ACTIVE")
    (hs2 : jsToUpper s ∉ (["QUESTIONABLE", "DOUBTFUL", "OUT", "IR"] : List String)) :
    getPositionColor p = "text-gray-600 bg-gray-100"
    ∧ getInjuryStatusColor (some s) = "text-gray-600"
    ∧ getInjuryStatusColor none = "text-green-600" := by
  simp only [List.mem_cons, List.not_mem_nil, or_false, not_or] at hp hs2
  obtain ⟨hp1, hp2, hp3, hp4, hp5, hp6, hp7⟩ := hp
  obtain ⟨hq1, hq2, hq3, hq4⟩ := hs2
  refine ⟨?_, ?_, rfl⟩
  · simp [getPositionColor, hp1, hp2, hp3, hp4, hp5, hp6, hp7]
  · simp [getInjuryStatusColor, hs0, hs1, hq1, hq2, hq3, hq4]

/-- Witness for C6 at position code "999" and injury status
"UNKNOWN_CODE". -/
theorem mapping_unknown_defaults_witness :
    getPositionColor "999" = "text-gray-600 bg-gray-100"
    ∧ getInjuryStatusColor (some "UNKNOWN_CODE") = "text-gray-600"
    ∧ getInjuryStatusColor none = "text-green-600" :=
  mapping_unknown_defaults "999" "UNKNOWN_CODE" (by decide) (by decide)
    (by decide) (by decide)

/-- C7: a 401 Unauthorized response is never retried — the retry loop
surfaces the `HTTPStatusError` after exactly one attempt with no sleep
(the `except httpx.RequestError` clause does not catch it) — and the
frontend response interceptor reacts to status 401 by removing the
stored access token rather than re-issuing the request. -/
theorem unauthorized_no_retry (upstream : ℕ → UpResp) (m : ℕ)
    (h401 : upstream 0 = UpResp.status 401) (hm : 1 ≤ m)
    (st : AuthState) (err : AxiosFailure) (herr : err.status = some 401) :
    espnRequestWithRetry upstream m
        = ⟨RetryResult.httpError 401, 1, []⟩
    ∧ (responseErrorInterceptor st err).1.access_token = none
    ∧ (responseErrorInterceptor st err).1.authHeader = none := by
  obtain ⟨k, rfl⟩ : ∃ k, m = k + 1 := ⟨m - 1, by omega⟩
  refine ⟨?_, ?_⟩
  · simp [espnRequestWithRetry, retryFrom, h401]
  · simp only [responseErrorInterceptor, herr, removeAuthToken, if_pos]
    constructor <;> · split <;> rfl

/-- Witness for C7: a 401 at the first attempt with the default
ceiling, a logged-in client state, and a 401 axios failure. -/
theorem unauthorized_no_retry_witness :
    espnRequestWithRetry (fun _ => UpResp.status 401) 3
        = ⟨RetryResult.httpError 401, 1, []⟩
    ∧ (responseErrorInterceptor ⟨some "tok", some "Bearer tok", "/dashboard"⟩
        ⟨some 401, none, "Unauthorized"⟩).1.access_token = none
    ∧ (responseErrorInterceptor ⟨some "tok", some "Bearer tok", "/dashboard"⟩
        ⟨some 401, none, "Unauthorized"⟩).1.authHeader = none :=
  unauthorized_no_retry (fun _ => UpResp.status 401) 3 rfl (by decide)
    ⟨some "tok", some "Bearer tok", "/dashboard"⟩
    ⟨some 401, none, "Unauthorized"⟩ rfl

/-- C8: the winner of a matchup is exactly one of HOME, AWAY, TIE,
UNDECIDED; while it is UNDECIDED `getWinnerStyle` returns the neutral
empty style for both sides, and the result summary is produced exactly
when the winner is not UNDECIDED. -/
theorem matchup_winner_undecided_neutral :
    (∀ w : Winner,
        w = Winner.HOME ∨ w = Winner.AWAY ∨ w = Winner.TIE ∨ w = Winner.UNDECIDED)
    ∧ (∀ (week : ℕ) (hid aid : ℤ) (hscore ascore : ℚ) (u : Option ℤ)
        (isHome : Bool),
        getWinnerStyle ⟨week, hid, aid, hscore, ascore, Winner.UNDECIDED⟩ u isHome
          = "")
    ∧ (∀ (m : Matchup) (hn an : String),
        (resultSummary m hn an).isSome = (m.winner != Winner.UNDECIDED)) := by
  refine ⟨fun w => by cases w <;> simp, ?_, ?_⟩
  · intro week hid aid hscore ascore u isHome
    simp [getWinnerStyle]
  · intro m hn an
    cases hw : m.winner <;> simp [resultSummary, hw]

/-- C9: `getWinPercentage` guards the division: zero games yields 0,
otherwise it is `((wins + 0.5·ties) / (wins + losses + ties)) · 100`,
and for non-negative inputs the result always lies in [0, 100]. -/
theorem getWinPercentage_total_bounded (w l t : ℚ)
    (hw : 0 ≤ w) (hl : 0 ≤ l) (ht : 0 ≤ t) :
    (w + l + t = 0 → getWinPercentage w l t = 0)
    ∧ (w + l + t ≠ 0 →
        getWinPercentage w l t = ((w + (1/2) * t) / (w + l + t)) * 100)
    ∧ 0 ≤ getWinPercentage w l t ∧ getWinPercentage w l t ≤ 100 := by
  unfold getWinPercentage
  by_cases h0 : w + l + t = 0
  · simp [h0]
  · have hpos : 0 < w + l + t := lt_of_le_of_ne (by positivity) (Ne.symm h0)
    simp only [h0, if_false]
    refine ⟨fun h => h.elim, fun _ => by ring, by positivity, ?_⟩
    have hnum : w + t * (1/2) ≤ w + l + t := by linarith
    have hdiv : (w + t * (1/2)) / (w + l + t) ≤ 1 :=
      (div_le_one hpos).mpr hnum
    have := mul_le_mul_of_nonneg_right hdiv (by norm_num : (0:ℚ) ≤ 100)
    linarith

/-- Witness for C9 at a 3–2–1 record. -/
theorem getWinPercentage_total_bounded_witness :
    ((3:ℚ) + 2 + 1 = 0 → getWinPercentage 3 2 1 = 0)
    ∧ ((3:ℚ) + 2 + 1 ≠ 0 →
        getWinPercentage 3 2 1 = (((3:ℚ) + (1/2) * 1) / (3 + 2 + 1)) * 100)
    ∧ 0 ≤ getWinPercentage 3 2 1 ∧ getWinPercentage 3 2 1 ≤ 100 :=
  getWinPercentage_total_bounded 3 2 1 (by norm_num) (by norm_num) (by norm_num)

/-- C10: `isValidESPNLeagueId` accepts a string exactly when JS
`parseInt` yields a strictly positive number; in particular it accepts
"123abc" (leading digits with trailing garbage) and rejects "0", a
negative number, and a string with no leading digits. -/
theorem isValidESPNLeagueId_iff_parseInt_pos :
    (∀ s : String, isValidESPNLeagueId s = true ↔
        ∃ n : ℤ, parseIntJS s = some n ∧ 0 < n)
    ∧ isValidESPNLeagueId "123abc" = true
    ∧ isValidESPNLeagueId "0" = false
    ∧ isValidESPNLeagueId "-5" = false
    ∧ isValidESPNLeagueId "abc" = false := by
  refine ⟨?_, by decide, by decide, by decide, by decide⟩
  intro s
  unfold isValidESPNLeagueId
  cases h : parseIntJS s <;> simp

end FFA
